import Mathlib

/-!
Verification development for `process_drive_excel.py`, a single-script
pipeline that locates the newest matching file in a Drive folder, downloads
it, decrypts a password-protected Excel workbook, converts one sheet to CSV
text and posts it to a GAS (Google Apps Script) web-app relay.

The script is shallowly embedded: pure computations become Lean functions,
the external services (Drive listing, download, the relay HTTP endpoint) are
abstracted into an environment record, and the observable behaviour of
`main` (console output, outgoing requests, terminal outcome) is captured as
a trace of events.
-/

set_option autoImplicit false

namespace ProcessDriveExcel

/-! ## String helpers

Python string operations are modelled on the character list underlying a
Lean `String` (Python slicing and `str.replace` operate on code points,
which matches `List Char`). -/

/-- Python slice `s[:n]` (first `n` characters). -/
def strTake (s : String) (n : Nat) : String :=
  ⟨s.data.take n⟩

/-- Python slice `s[n:]` (drop the first `n` characters). -/
def strDrop (s : String) (n : Nat) : String :=
  ⟨s.data.drop n⟩

/-- Fuel-driven worker for `replaceAll`.  Each step either copies one
character or consumes a full (non-empty) occurrence of `pat`, so fuel equal
to the length of the input list is always sufficient. -/
def replaceAllAux (pat rep : List Char) : Nat → List Char → List Char
  | 0, l => l
  | _ + 1, [] => []
  | fuel + 1, c :: cs =>
    if pat ≠ [] ∧ pat.isPrefixOf (c :: cs) then
      rep ++ replaceAllAux pat rep fuel ((c :: cs).drop pat.length)
    else
      c :: replaceAllAux pat rep fuel cs

/-- Python `s.replace(pat, rep)`: replace every non-overlapping occurrence
of `pat`, scanning left to right.  (The empty-pattern edge case of Python is
never exercised by the script, which only calls `replace(".xlsx", "")`; it
is modelled as the identity.) -/
def pyReplace (s pat rep : String) : String :=
  ⟨replaceAllAux pat.data rep.data s.data.length s.data⟩

/-! ## Tabular data model

A `pandas.DataFrame` is modelled as a header (column names) plus rows of
already-rendered cell texts; `pd.DataFrame()` is the empty frame and
`df.empty` is true when either axis has length zero. -/

structure DataFrame where
  columns : List String
  rows : List (List String)
deriving DecidableEq, Repr

/-- `pd.DataFrame()` — the frame returned by the reader on any failure. -/
def pdEmpty : DataFrame := ⟨[], []⟩

/-- `df.empty`: true when the frame has no rows or no columns. -/
def DataFrame.isEmpty (df : DataFrame) : Bool :=
  df.rows.isEmpty || df.columns.isEmpty

/-! ## Encrypted workbook and the reader

The encrypted container handled by `msoffcrypto` + `pd.read_excel` is
modelled abstractly: a correct password, a well-formedness flag for the
container format, and the named sheets with their data.  `decryptAndParse`
is the body of the `try:` block of `load_locked_excel` (lines 43–52 of the
script): `OfficeFile(buffer)` raises on an unsupported container,
`load_key`/`decrypt` raise when the password fails verification, and
`pd.read_excel(..., sheet_name=...)` raises when the sheet is missing.  The
exact exception messages do not influence the script's return value (they
only select which diagnostic line is printed), so they are modelled as
fixed strings. -/

structure EncryptedWorkbook where
  password : String
  wellFormed : Bool
  sheets : List (String × DataFrame)
deriving Repr

/-- The fallible decrypt-then-parse computation inside the `try:` block of
`load_locked_excel`, returning either the parsed sheet or the message of
the exception that escapes. -/
def decryptAndParse (wb : EncryptedWorkbook) (sheet_name : String)
    (password : String) : Except String DataFrame :=
  if wb.wellFormed = false then
    .error "Unsupported file format"
  else if password ≠ wb.password then
    .error "Decryption failed: key verification failure"
  else
    match wb.sheets.lookup sheet_name with
    | none => .error ("Worksheet " ++ sheet_name ++ " not found")
    | some df => .ok df

/-- `load_locked_excel` (script lines 41–59): runs the decrypt-and-parse
computation and, on ANY exception, prints a diagnostic and returns
`pd.DataFrame()`.  The function has no error channel: its only result is a
`DataFrame`. -/
def load_locked_excel (wb : EncryptedWorkbook) (sheet_name : String)
    (password : String) : DataFrame :=
  match decryptAndParse wb sheet_name password with
  | .ok df => df
  | .error _ => pdEmpty

/-! ## Artifact naming -/

/-- A calendar date, used for `datetime.date.today()`. -/
structure Date where
  year : Nat
  month : Nat
  day : Nat
deriving DecidableEq, Repr

/-- Two-digit zero-padded decimal rendering, as produced by `strftime`
fields `%y` (applied to `year % 100`), `%m` and `%d` on valid dates (all
three values are below 100). -/
def pad2 (n : Nat) : String :=
  ⟨[Char.ofNat (48 + n / 10 % 10), Char.ofNat (48 + n % 10)]⟩

/-- `output_secure_date` (script lines 62–65): the run date rendered as
`%y%m%d`.  The ambient `datetime.date.today()` becomes an explicit `today`
parameter. -/
def output_secure_date (today : Date) : String :=
  pad2 (today.year % 100) ++ pad2 today.month ++ pad2 today.day

/-- The output filename built at script line 134:
`f"secure-{output_secure_date()}_{file_name.replace('.xlsx', '')}.csv"`.
Note that `str.replace` removes every occurrence of `".xlsx"`, not only a
trailing extension. -/
def output_filename (today : Date) (file_name : String) : String :=
  "secure-" ++ output_secure_date today ++ "_" ++
    pyReplace file_name ".xlsx" "" ++ ".csv"

/-! ## CSV encoding

`df.to_csv(index=False, encoding="utf-8-sig")` at script line 137.  The
call passes no `path_or_buf`, so pandas writes into an internal `StringIO`
and returns its contents as a `str`.  pandas documents that `encoding` "is
not supported if path_or_buf is a non-binary file object": for string
output the `utf-8-sig` argument is ignored and, in particular, no
byte-order mark is prepended to the returned text.  Field quoting is
`csv.QUOTE_MINIMAL` (quote when the field holds the delimiter, the quote
character or a line break, doubling embedded quotes) and rows end with a
line feed. -/

/-- Quote one CSV field per `QUOTE_MINIMAL`. -/
def csvField (s : String) : String :=
  if s.data.any (fun c => c = ',' || c = '"' || c = '\n' || c = '\r') then
    "\"" ++ ⟨s.data.foldr (fun c acc =>
      if c = '"' then '"' :: '"' :: acc else c :: acc) []⟩ ++ "\""
  else s

/-- One CSV record: fields joined by commas. -/
def csvLine (cells : List String) : String :=
  String.intercalate "," (cells.map csvField)

/-- Join rows, terminating each with a line feed. -/
def joinRows : List String → String
  | [] => ""
  | r :: rs => r ++ "\n" ++ joinRows rs

/-- `df.to_csv(index=False, encoding="utf-8-sig")` with no target path:
header row followed by data rows, returned as a plain string.  The
`encoding` argument is not applied to string output, so the result carries
no byte-order mark. -/
def to_csv (df : DataFrame) : String :=
  joinRows (csvLine df.columns :: df.rows.map csvLine)

/-! ## Relay delivery

The GAS web-app call at script lines 160–198.  The observable response is
either an exception raised by `requests.post` itself (network failure,
timeout — a `RequestException`) or an HTTP response with a status code, a
body text, and — when the body parses as JSON — the fields the script reads
out of it with `.get(...)` (absent keys give `None`). -/

/-- The JSON fields of the relay reply that the script reads. -/
structure RelayJson where
  status : Option String
  fileId : Option String
  fileUrl : Option String
  message : Option String
deriving DecidableEq, Repr

/-- An HTTP response from the relay: status code, raw body text, and the
parsed JSON fields when the body is valid JSON (`none` when
`response.json()` raises `JSONDecodeError`). -/
structure RelayResponse where
  httpStatus : Nat
  text : String
  jsonBody : Option RelayJson
deriving DecidableEq, Repr

/-- Result of the `requests.post` call: either the call itself raised, or a
response arrived. -/
inductive PostResult where
  | raised (msg : String)
  | got (resp : RelayResponse)
deriving DecidableEq, Repr

/-- Spec §3/§4.4 delivery outcome, as realised by the branch structure of
the script: success print (lines 169–172), GAS-reported error print (lines
173–178), `JSONDecodeError` handler (lines 181–188, raw body truncated to
1000 characters), `RequestException` handler (lines 190–198) covering both
`raise_for_status` HTTP errors and transport faults. -/
inductive DeliveryOutcome where
  | success (fileId fileUrl : Option String)
  | remoteRejected (message : Option String) (raw : RelayJson)
  | unexpectedResponseShape (rawBody : String)
  | httpStatusFailure (code : Nat) (body : String)
  | transportFailure (msg : String)
deriving DecidableEq, Repr

/-- Classification of the relay call, following the `try/except` structure
of script lines 160–198 in order: a raise from `post` lands in the
`RequestException` handler; `raise_for_status()` raises `HTTPError` (a
`RequestException`) for status codes `>= 400`; `response.json()` raises
`JSONDecodeError` (checked by its own handler first, since it is listed
before `RequestException`); otherwise the parsed body's `status` field is
compared with `"success"`. -/
def classifyDelivery : PostResult → DeliveryOutcome
  | .raised msg => .transportFailure msg
  | .got resp =>
    if 400 ≤ resp.httpStatus then
      .httpStatusFailure resp.httpStatus (strTake resp.text 1000)
    else
      match resp.jsonBody with
      | none => .unexpectedResponseShape (strTake resp.text 1000)
      | some j =>
        if j.status = some "success" then .success j.fileId j.fileUrl
        else .remoteRejected j.message j

/-! ## The main pipeline

`main` (script lines 68–198) is embedded as a function from the loaded
configuration and an environment — the responses of the external services
for this run — to a terminal outcome together with a trace of observable
events: console lines, the Drive list query, the media download request and
the relay POST.  The Drive auth/list/download calls are modelled as
succeeding with the environment's data (an exception there would escape
`main` unhandled; all the behaviour the claims are about is on the
successful path of those calls).  The per-chunk download progress prints
are not individually modelled. -/

/-- The module-level configuration read from environment variables (script
lines 14–28). -/
structure Config where
  target_excel_folder_id : String
  upload_folder_id : String
  excel_password_1 : String
  gas_web_app_url : String
  gas_secret_key : String
deriving Repr

/-- One file entry of the Drive listing reply. -/
structure DriveFile where
  fileId : String
  name : String
deriving DecidableEq, Repr

/-- External-world behaviour for one run. -/
structure Env where
  /-- `results.get('files', [])` for the pageSize-1, name-descending query. -/
  items : List DriveFile
  /-- Decrypted-container view of the bytes downloaded for the located file. -/
  workbook : EncryptedWorkbook
  /-- `datetime.date.today()` during the run. -/
  today : Date
  /-- Behaviour of the `requests.post` call to the relay. -/
  postResult : PostResult

/-- The body of the relay POST (script lines 154–158). -/
structure RelayRequest where
  folderId : String
  filename : String
  csvData : String
deriving DecidableEq, Repr

/-- Observable events of a run. -/
inductive Event where
  | out (line : String)
  | listQuery (q : String)
  | mediaGet (fileId : String)
  | postRelay (url : String) (apiKey : String) (body : RelayRequest)
deriving DecidableEq, Repr

/-- The hard-coded name filter of the listing query (script line 78). -/
def FILE_PREFIX : String := "東大特進入学＆資料請求"

/-- The hard-coded sheet selection (script line 125). -/
def TARGET_SHEET_NAME : String := "H3(2026卒)"

/-- The Drive query string assembled at script lines 82–86. -/
def queryFor (folderId : String) : String :=
  "\x27" ++ folderId ++ "\x27 in parents and trashed = false and name starts with \x27"
    ++ FILE_PREFIX ++ "\x27 "

/-- How a run of `main` ends: an early `return` at line 104 (no listing
match), an early `return` at line 130 (empty frame from the reader), or
completion of the relay-delivery section with some classified outcome. -/
inductive MainOutcome where
  | sourceNotFound
  | emptyData
  | delivered (o : DeliveryOutcome)
deriving DecidableEq, Repr

/-- Embedding of `main` (script lines 68–198): issues the listing query,
returns early when no item matches, otherwise downloads the located file,
prints the full relay secret (line 123), reads the target sheet with
`load_locked_excel`, returns early when the resulting frame is empty,
otherwise derives the output name, builds the CSV text, prints the
truncated-key debug line (lines 145–148), POSTs to the relay and classifies
the response.  Returns the outcome and the event trace in order. -/
def mainRun (cfg : Config) (env : Env) : MainOutcome × List Event :=
  let ev0 : List Event := [.listQuery (queryFor cfg.target_excel_folder_id)]
  match env.items with
  | [] =>
    (.sourceNotFound, ev0 ++ [.out "フォルダ内にファイルが見つかりませんでした。"])
  | latest_file :: _ =>
    let ev1 := ev0 ++ [.mediaGet latest_file.fileId]
    let ev2 := ev1 ++ [.out ("GAS SECRET_KEY: " ++ cfg.gas_secret_key)]
    let df := load_locked_excel env.workbook TARGET_SHEET_NAME cfg.excel_password_1
    if df.isEmpty then
      (.emptyData,
        ev2 ++ [.out "Excelデータの読み込みに失敗したか、データが空です。処理を終了します。"])
    else
      let fname := output_filename env.today latest_file.name
      let csv_data_string := to_csv df
      let key := cfg.gas_secret_key
      let keyLine : Event :=
        if 4 < key.data.length then
          .out ("  -> デバッグ: 送信するAPIキー: \x27..."
            ++ strDrop key (key.data.length - 4) ++ "\x27")
        else
          .out "  -> デバッグ: 送信するAPIキー: (短すぎるか、空です)"
      let ev3 := ev2 ++ [keyLine,
        .postRelay cfg.gas_web_app_url key ⟨cfg.upload_folder_id, fname, csv_data_string⟩]
      (.delivered (classifyDelivery env.postResult), ev3)

/-! ## Spec-level state machine and process exit -/

/-- Pipeline stage of spec §4.5. -/
inductive Stage where
  | idle | located | fetched | decrypted | encoded | delivered
deriving DecidableEq, Repr

/-- Failure reason taxonomy of spec §7 (the kinds reachable in this
embedding). -/
inductive FailReason where
  | sourceNotFound
  | emptyDataset
  | transport
  | httpStatus
  | unexpectedShape
  | remoteRejected
deriving DecidableEq, Repr

/-- Terminal state of spec §4.5: `Done` or `Failed(stage, reason)`. -/
inductive Terminal where
  | done
  | failed (s : Stage) (r : FailReason)
deriving DecidableEq, Repr

/-- Map a run's outcome to the spec's terminal state. -/
def terminalOf : MainOutcome → Terminal
  | .sourceNotFound => .failed .located .sourceNotFound
  | .emptyData => .failed .decrypted .emptyDataset
  | .delivered (.success _ _) => .done
  | .delivered (.transportFailure _) => .failed .delivered .transport
  | .delivered (.httpStatusFailure _ _) => .failed .delivered .httpStatus
  | .delivered (.unexpectedResponseShape _) => .failed .delivered .unexpectedShape
  | .delivered (.remoteRejected _ _) => .failed .delivered .remoteRejected

/-- Process-level behaviour of the script: when a required environment
variable is missing, the module-level `except KeyError` handler calls
`exit(1)` before `main` starts (lines 30–34); otherwise `main()` runs and
returns normally on every handled path, so the interpreter exits with
status 0.  Returns the exit code and, when `main` ran, its outcome and
trace. -/
def scriptRun : Option Config → Env → Nat × Option (MainOutcome × List Event)
  | none, _ => (1, none)
  | some cfg, env => (0, some (mainRun cfg env))

/-! ## Spec-side definitions

These follow the WORDS of the spec, for comparison against the embedded
code; they are not translations of the source. -/

/-- Spec §4.3 naming, as the spec words it: strip the known file extension
(a trailing `".xlsx"`) from the source name — and only the extension,
leaving the rest of the name intact. -/
def stripKnownExtension (name : String) : String :=
  if ".xlsx".data.isSuffixOf name.data then ⟨name.data.take (name.data.length - 5)⟩
  else name

/-- Spec §4.3 `derive_name` with no sheet-name component, per the spec's
words. -/
def derive_name_spec (source_name : String) (run_date : Date) : String :=
  "secure-" ++ output_secure_date run_date ++ "_" ++ stripKnownExtension source_name
    ++ ".csv"

/-! ## Concrete sample data for witnesses and counterexamples -/

/-- A well-formed workbook: password `"pw"`, one sheet `"S"` with one
column and one row. -/
def wbOneRow : EncryptedWorkbook :=
  ⟨"pw", true, [("S", ⟨["col"], [["v"]]⟩)]⟩

/-- A well-formed workbook whose sheet `"S"` is genuinely empty: reading it
succeeds and yields a frame equal to `pd.DataFrame()`. -/
def wbEmptySheet : EncryptedWorkbook :=
  ⟨"pw", true, [("S", pdEmpty)]⟩

/-- A sample configuration. -/
def cfgA : Config :=
  ⟨"in-folder", "out-folder", "pw", "https://gas.example/exec", "topsecret9876"⟩

/-- An environment whose listing query matches nothing. -/
def envNoItems : Env :=
  ⟨[], wbOneRow, ⟨2025, 6, 1⟩, .got ⟨200, "", none⟩⟩

/-- The parsed JSON of the spec's relay success example. -/
def jsonSuccessExample : RelayJson :=
  ⟨some "success", some "abc123", some "https://x/abc123", none⟩

/-- An environment with one matching file and a successful relay reply.
The workbook's sheet is named `"H3(2026卒)"` so the hard-coded sheet
selection of the script finds it. -/
def envOneItem : Env :=
  ⟨[⟨"f1", "Report 2024.xlsx"⟩],
   ⟨"pw", true, [(TARGET_SHEET_NAME, ⟨["col"], [["v"]]⟩)]⟩,
   ⟨2025, 6, 1⟩,
   .got ⟨200, "", some jsonSuccessExample⟩⟩

/-- The single-cell frame used for the CSV byte-order-mark check. -/
def dfKanji : DataFrame := ⟨["名前"], [["値"]]⟩

/-! ## Claim C1 -/

/-- Claim C1, counterexample.  On a validly-formed workbook with a nonempty
sheet, an incorrect password makes `load_locked_excel` return a value that
is literally equal to the result of successfully reading a genuinely empty
sheet — exactly the "silent empty result indistinguishable from an empty
sheet" the claim rules out — and the function's result type has no typed
`ReaderError` value at all. -/
theorem wrong_password_gives_silent_empty_result :
    wbOneRow.wellFormed = true ∧ "xx" ≠ wbOneRow.password ∧
    decryptAndParse wbEmptySheet "S" "pw" = .ok pdEmpty ∧
    load_locked_excel wbOneRow "S" "xx" = load_locked_excel wbEmptySheet "S" "pw" :=
  ⟨rfl, by decide, rfl, by decide⟩

/-- Claim C1, amended: for every validly-formed encrypted workbook and
every incorrect password, `load_locked_excel` returns `pd.DataFrame()` (an
empty frame, after printing a diagnostic line) — not a typed failure — and
this result is indistinguishable from a successfully read empty sheet. -/
theorem wrong_password_returns_pdEmpty (wb : EncryptedWorkbook)
    (sheet_name pw : String) (hw : wb.wellFormed = true)
    (hp : pw ≠ wb.password) :
    load_locked_excel wb sheet_name pw = pdEmpty := by
  simp [load_locked_excel, decryptAndParse, hw, hp]

/-- Witness for the amended C1 theorem at a concrete input. -/
theorem wrong_password_returns_pdEmpty_witness :
    wbOneRow.wellFormed = true ∧ "xx" ≠ wbOneRow.password ∧
    load_locked_excel wbOneRow "S" "xx" = pdEmpty :=
  ⟨rfl, by decide, wrong_password_returns_pdEmpty wbOneRow "S" "xx" rfl (by decide)⟩

/-! ## Claim C2 -/

/-- Claim C2, counterexample.  A run whose locator query matches nothing
ends in the terminal state `Failed(Located, SourceNotFound)` — not `Done` —
yet the process exit code is 0, because `main` handles the failure with a
plain `return` and the script never converts a pipeline failure into a
non-zero exit status. -/
theorem pipeline_failure_exits_zero :
    terminalOf (mainRun cfgA envNoItems).fst = .failed .located .sourceNotFound ∧
    terminalOf (mainRun cfgA envNoItems).fst ≠ .done ∧
    (scriptRun (some cfgA) envNoItems).fst = 0 :=
  ⟨rfl, by decide, rfl⟩

/-- Claim C2, amended: the process exit code does not depend on the
pipeline's terminal state at all.  It is 0 whenever the required
configuration is present (every handled pipeline failure — no source found,
empty dataset, delivery failure — still exits 0, since `main` just
returns), and 1 exactly when a required environment variable is missing. -/
theorem exit_code_depends_only_on_config :
    (∀ (cfg : Config) (env : Env), (scriptRun (some cfg) env).fst = 0) ∧
    (∀ env : Env, (scriptRun none env).fst = 1) :=
  ⟨fun _ _ => rfl, fun _ => rfl⟩

/-! ## Claim C3 -/

/-- Claim C3, counterexample.  Requesting a sheet that is absent from a
successfully decrypted workbook does not yield a typed
`ReaderError::SheetNotFound`: `load_locked_excel` returns `pd.DataFrame()`,
the very same value it returns for a wrong password and for an empty
dataset — the three failure kinds are not distinct in the result. -/
theorem missing_sheet_not_a_distinct_failure :
    wbOneRow.sheets.lookup "X" = none ∧
    load_locked_excel wbOneRow "X" "pw" = pdEmpty ∧
    load_locked_excel wbOneRow "X" "pw" = load_locked_excel wbOneRow "S" "xx" ∧
    load_locked_excel wbOneRow "X" "pw" = load_locked_excel wbEmptySheet "S" "pw" :=
  ⟨rfl, by decide, by decide, by decide⟩

/-- Claim C3, amended: for every successfully decrypted workbook and every
requested sheet name not present in it, `load_locked_excel` returns
`pd.DataFrame()` (after printing a diagnostic), a value indistinguishable
from the wrong-password and empty-dataset cases. -/
theorem missing_sheet_returns_pdEmpty (wb : EncryptedWorkbook)
    (sheet_name pw : String) (hw : wb.wellFormed = true)
    (hp : pw = wb.password) (hs : wb.sheets.lookup sheet_name = none) :
    load_locked_excel wb sheet_name pw = pdEmpty := by
  simp [load_locked_excel, decryptAndParse, hw, hp, hs]

/-- Witness for the amended C3 theorem at a concrete input. -/
theorem missing_sheet_returns_pdEmpty_witness :
    wbOneRow.wellFormed = true ∧ wbOneRow.sheets.lookup "X" = none ∧
    load_locked_excel wbOneRow "X" "pw" = pdEmpty :=
  ⟨rfl, rfl, missing_sheet_returns_pdEmpty wbOneRow "X" "pw" rfl rfl rfl⟩

/-! ## Claim C4 -/

/-- Claim C4: for every relay response with an HTTP success status (below
the 400 threshold of `raise_for_status`) whose body is not parseable JSON,
the delivery classification is the `JSONDecodeError` branch —
`Failure::UnexpectedResponseShape` carrying the raw body truncated to 1000
characters.  The classification is a total function of the post result, so
no exception escapes the handler structure. -/
theorem non_json_success_response_is_unexpected_shape (resp : RelayResponse)
    (hs : resp.httpStatus < 400) (hj : resp.jsonBody = none) :
    classifyDelivery (.got resp) = .unexpectedResponseShape (strTake resp.text 1000) := by
  simp [classifyDelivery, Nat.not_le.mpr hs, hj]

/-- Witness for C4: HTTP 200 with an HTML login page body. -/
theorem non_json_success_response_witness :
    (200 : Nat) < 400 ∧
    classifyDelivery (.got ⟨200, "<html>Login</html>", none⟩) =
      .unexpectedResponseShape (strTake "<html>Login</html>" 1000) :=
  ⟨by decide,
   non_json_success_response_is_unexpected_shape ⟨200, "<html>Login</html>", none⟩
     (by decide) rfl⟩

/-! ## Claim C5 -/

/-- Claim C5: for every relay response with success HTTP status and a
parseable JSON body, a `status` field equal to `"success"` yields the
`Success` outcome whose id and URL are read from the body's `fileId` and
`fileUrl` fields, while a `status` field holding any other value yields
`Failure::RemoteRejected` carrying the body's `message` field. -/
theorem relay_json_status_classification (resp : RelayResponse) (j : RelayJson)
    (hs : resp.httpStatus < 400) (hj : resp.jsonBody = some j) :
    (j.status = some "success" →
      classifyDelivery (.got resp) = .success j.fileId j.fileUrl) ∧
    (∀ v : String, j.status = some v → v ≠ "success" →
      classifyDelivery (.got resp) = .remoteRejected j.message j) := by
  constructor
  · intro hok
    simp [classifyDelivery, Nat.not_le.mpr hs, hj, hok]
  · intro v hv hne
    simp [classifyDelivery, Nat.not_le.mpr hs, hj, hv, hne]

/-- Witness for C5, using the spec's mock reply
`{"status":"success","fileId":"abc123","fileUrl":"https://x/abc123"}`. -/
theorem relay_json_status_classification_witness :
    (200 : Nat) < 400 ∧ jsonSuccessExample.status = some "success" ∧
    classifyDelivery (.got ⟨200, "", some jsonSuccessExample⟩) =
      .success (some "abc123") (some "https://x/abc123") :=
  ⟨by decide, rfl,
   (relay_json_status_classification ⟨200, "", some jsonSuccessExample⟩
     jsonSuccessExample (by decide) rfl).1 rfl⟩

/-! ## Claim C6 -/

/-- Claim C6, counterexample.  `str.replace('.xlsx', '')` removes every
occurrence of `".xlsx"` in the source name, not only the trailing
extension: on the name `"a.xlsx.xlsx"` the code-derived name drops the
interior `".xlsx"` as well, so the rest of the name is not left intact and
the result differs from the spec-worded derivation that strips only the
extension. -/
theorem interior_xlsx_also_removed :
    output_filename ⟨2025, 6, 1⟩ "a.xlsx.xlsx" = "secure-250601_a.csv" ∧
    derive_name_spec "a.xlsx.xlsx" ⟨2025, 6, 1⟩ = "secure-250601_a.xlsx.csv" ∧
    output_filename ⟨2025, 6, 1⟩ "a.xlsx.xlsx" ≠ derive_name_spec "a.xlsx.xlsx" ⟨2025, 6, 1⟩ := by
  refine ⟨by decide, by decide, by decide⟩

/-- Claim C6, amended: the derived output name is
`"secure-" ++ YYMMDD(run_date) ++ "_" ++ s ++ ".csv"` where `s` is the
source name with EVERY occurrence of `".xlsx"` removed (not only a trailing
extension).  The spec's concrete example holds, and changing `run_date`
changes only the six-character date segment (characters 7–12): the prefix
of length 7 and the suffix from index 13 are independent of the date. -/
theorem output_filename_shape :
    output_filename ⟨2025, 6, 1⟩ "Report 2024.xlsx" = "secure-250601_Report 2024.csv" ∧
    (∀ (d : Date) (name : String),
      output_filename d name =
        "secure-" ++ output_secure_date d ++ "_" ++ pyReplace name ".xlsx" "" ++ ".csv") ∧
    (∀ (d₁ d₂ : Date) (name : String),
      strTake (output_filename d₁ name) 7 = strTake (output_filename d₂ name) 7 ∧
      strDrop (output_filename d₁ name) 13 = strDrop (output_filename d₂ name) 13) :=
  ⟨by decide, fun _ _ => rfl, fun _ _ _ => ⟨rfl, rfl⟩⟩

/-! ## Claim C7 -/

/-- Claim C7: the CSV text handed to the relay request is the plain string
returned by `to_csv` with no byte-order mark.  pandas ignores the
`encoding="utf-8-sig"` argument when `path_or_buf` is `None` (string
output), so the first character of the delivered text is the first header
character, not U+FEFF. -/
theorem csv_string_has_no_bom :
    to_csv dfKanji = "名前\n値\n" ∧
    strTake (to_csv dfKanji) 1 ≠ "\uFEFF" := by
  refine ⟨by decide, by decide⟩

/-! ## Claim C8 -/

/-- Claim C8: when the locator query returns zero items, the run halts at
`Failed(Located, SourceNotFound)` and the event trace contains no media-get
download request. -/
theorem no_items_halts_before_download (cfg : Config) (env : Env)
    (h : env.items = []) :
    terminalOf (mainRun cfg env).fst = .failed .located .sourceNotFound ∧
    ∀ fid : String, Event.mediaGet fid ∉ (mainRun cfg env).snd := by
  constructor
  · simp [mainRun, h, terminalOf]
  · intro fid
    simp [mainRun, h]

/-- Witness for C8 at a concrete empty locator result. -/
theorem no_items_halts_before_download_witness :
    envNoItems.items = [] ∧
    terminalOf (mainRun cfgA envNoItems).fst = .failed .located .sourceNotFound ∧
    Event.mediaGet "f1" ∉ (mainRun cfgA envNoItems).snd :=
  ⟨rfl, (no_items_halts_before_download cfgA envNoItems rfl).1,
   (no_items_halts_before_download cfgA envNoItems rfl).2 "f1"⟩

/-! ## Claim C9 -/

/-- Claim C9: every run that reaches the read stage (the locator matched
some file, so execution passes script line 123 on the way to
`load_locked_excel`) prints the complete shared secret in plaintext —
`print(f"GAS SECRET_KEY: {GAS_SECRET_KEY}")` — on standard output, in
addition to the deliberately truncated last-4-characters debug line emitted
just before delivery. -/
theorem secret_printed_in_full (cfg : Config) (env : Env)
    (h : env.items ≠ []) :
    Event.out ("GAS SECRET_KEY: " ++ cfg.gas_secret_key) ∈ (mainRun cfg env).snd := by
  match henv : env.items with
  | [] => exact absurd henv h
  | f :: rest =>
    simp only [mainRun, henv]
    split
    · simp
    · split <;> simp

/-- Witness for C9 at a concrete run that reaches the read stage. -/
theorem secret_printed_in_full_witness :
    envOneItem.items ≠ [] ∧
    Event.out ("GAS SECRET_KEY: " ++ cfgA.gas_secret_key) ∈ (mainRun cfgA envOneItem).snd :=
  ⟨by decide, secret_printed_in_full cfgA envOneItem (by decide)⟩

/-! ## Claim C10 -/

/-- Claim C10: `load_locked_excel` is total over the modelled input space —
it always returns a `DataFrame`.  When the underlying decrypt-and-parse
computation succeeds its frame is returned unchanged, and EVERY failure
cause (unsupported container, wrong password, missing sheet) collapses to
`pd.DataFrame()`; in particular the wrong-password result is literally
equal to the result of successfully reading a genuinely empty sheet, so the
caller cannot tell the two apart. -/
theorem load_locked_excel_collapses_failures :
    (∀ (wb : EncryptedWorkbook) (sheet_name pw : String) (df : DataFrame),
      decryptAndParse wb sheet_name pw = .ok df →
      load_locked_excel wb sheet_name pw = df) ∧
    (∀ (wb : EncryptedWorkbook) (sheet_name pw e : String),
      decryptAndParse wb sheet_name pw = .error e →
      load_locked_excel wb sheet_name pw = pdEmpty) ∧
    load_locked_excel wbOneRow "S" "xx" = load_locked_excel wbEmptySheet "S" "pw" := by
  refine ⟨?_, ?_, by decide⟩
  · intro wb sheet_name pw df hok
    simp [load_locked_excel, hok]
  · intro wb sheet_name pw e herr
    simp [load_locked_excel, herr]

/-- Witness for C10: a concrete failing read (wrong password) collapsing to
the empty frame. -/
theorem load_locked_excel_collapses_failures_witness :
    decryptAndParse wbOneRow "S" "xx" =
      .error "Decryption failed: key verification failure" ∧
    load_locked_excel wbOneRow "S" "xx" = pdEmpty :=
  ⟨rfl, load_locked_excel_collapses_failures.2.1 wbOneRow "S" "xx"
    "Decryption failed: key verification failure" rfl⟩

end ProcessDriveExcel
